import Mathlib

/-!
Shallow embedding of the `laguagu/rag-python-supabase` repository:
the `RAGSystem` orchestration pipeline (`src/rag/rag_system.py`), the
`EmbeddingManager` document processing (`src/embeddings/embedding_manager.py`),
the `SupabaseManager` surface (`src/database/supabase_manager.py`) and the
`main` startup check (`main.py`).

External collaborators (the OpenAI chat model, the OpenAI embedding API, the
Supabase document store, the langchain text splitter, the file system, the
LangGraph checkpointer) are modelled as explicit function parameters: a value
of type `Except String α` models a Python call that either returns `α` or
raises an exception with a message.
-/

namespace RagSupabase

/-- Python metadata values occurring in this code base: strings and ints. -/
inductive MetaVal where
  | str (s : String)
  | nat (n : Nat)
deriving Repr, DecidableEq

/-- A Python `dict[str, Any]` metadata mapping, as an association list in
insertion order (first binding for a key wins on lookup, as in a dict that
never holds duplicate keys). -/
abbrev Dict := List (String × MetaVal)

/-- `d[k]` lookup on a metadata dict. -/
def dictLookup (d : Dict) (k : String) : Option MetaVal :=
  (d.find? (fun p => p.1 = k)).map (fun p => p.2)

/-- Python `old.update(new)` / `{**old, **new}`: keys of `old` keep their
position but take the value from `new` when `new` binds them; keys only in
`new` are appended. -/
def dictUpdate (old new : Dict) : Dict :=
  (old.map (fun p =>
    match dictLookup new p.1 with
    | some v => (p.1, v)
    | none => p))
  ++ new.filter (fun p => (dictLookup old p.1).isNone)

/-- A langchain `Document`: `page_content` plus a metadata dict. -/
structure Doc where
  page_content : String
  metadata : Dict
deriving Repr, DecidableEq

/-- `"sep".join(parts)` from Python. -/
def joinWith (sep : String) : List String → String
  | [] => ""
  | [a] => a
  | a :: b :: rest => a ++ sep ++ joinWith sep (b :: rest)

/-! ### Dict lookup laws -/

theorem dictLookup_nil (k : String) : dictLookup [] k = none := rfl

theorem dictLookup_cons (p : String × MetaVal) (d : Dict) (k : String) :
    dictLookup (p :: d) k = if p.1 = k then some p.2 else dictLookup d k := by
  unfold dictLookup
  by_cases h : p.1 = k
  · simp [List.find?, h]
  · simp [List.find?, h]

theorem dictLookup_append (d₁ d₂ : Dict) (k : String) :
    dictLookup (d₁ ++ d₂) k =
      match dictLookup d₁ k with
      | some v => some v
      | none => dictLookup d₂ k := by
  induction d₁ with
  | nil => simp [dictLookup_nil]
  | cons p t ih =>
      rw [List.cons_append, dictLookup_cons, dictLookup_cons]
      by_cases h : p.1 = k
      · simp [h]
      · simp [h, ih]

theorem dictLookup_map_of_key_preserved (d : Dict)
    (f : String × MetaVal → String × MetaVal) (hf : ∀ p, (f p).1 = p.1)
    (k : String) :
    dictLookup (d.map f) k = (d.find? (fun p => p.1 = k)).map (fun p => (f p).2) := by
  induction d with
  | nil => rfl
  | cons p t ih =>
      rw [List.map_cons, dictLookup_cons]
      by_cases h : p.1 = k
      · simp [List.find?, hf, h]
      · simp [List.find?, hf, h, ih]

theorem dictLookup_filter (d : Dict) (q : String × MetaVal → Bool) (k : String)
    (hq : ∀ p : String × MetaVal, p.1 = k → q p = true) :
    dictLookup (d.filter q) k = dictLookup d k := by
  induction d with
  | nil => rfl
  | cons p t ih =>
      rw [List.filter_cons]
      by_cases hqp : q p = true
      · rw [if_pos hqp, dictLookup_cons, dictLookup_cons]
        by_cases h : p.1 = k
        · simp [h]
        · simp [h, ih]
      · rw [if_neg hqp, ih, dictLookup_cons]
        have h : ¬ p.1 = k := fun hk => hqp (hq p hk)
        simp [h]

/-- The central law of `dictUpdate`: lookup prefers the `new` dict and falls
back to `old`, exactly Python `update` semantics. -/
theorem dictLookup_dictUpdate (old new : Dict) (k : String) :
    dictLookup (dictUpdate old new) k =
      match dictLookup new k with
      | some v => some v
      | none => dictLookup old k := by
  have hold_eq : dictLookup old k = (old.find? (fun p => p.1 = k)).map (fun p => p.2) := rfl
  unfold dictUpdate
  rw [dictLookup_append]
  rw [dictLookup_map_of_key_preserved old _
    (fun p => by cases h : dictLookup new p.1 <;> simp [h])]
  cases hold : old.find? (fun p => decide (p.1 = k)) with
  | some p =>
      have hp : p.1 = k := by simpa using List.find?_some hold
      have hlo : dictLookup old k = some p.2 := by rw [hold_eq, hold]; rfl
      cases hnew : dictLookup new k with
      | some v => simp [hp, hnew]
      | none => simp [hp, hnew, hlo]
  | none =>
      have hlo : dictLookup old k = none := by rw [hold_eq, hold]; rfl
      have hfil :
          dictLookup (new.filter fun p => (dictLookup old p.1).isNone) k = dictLookup new k := by
        apply dictLookup_filter
        intro p hp
        rw [hp, hlo]
        rfl
      cases hnew : dictLookup new k with
      | some v => simp [hfil, hnew]
      | none => simp [hfil, hnew, hlo]

/-! ### `EmbeddingManager` (src/embeddings/embedding_manager.py)

The langchain `RecursiveCharacterTextSplitter` is an external library; it is
modelled as an abstract `splitter : String → List String` parameter, since the
code under verification only consumes its output. -/

/-- `EmbeddingManager.count_tokens`: approximate tokens as `len(text) // 4`. -/
def count_tokens (text : String) : Nat :=
  text.length / 4

/-- `EmbeddingManager.split_text_into_chunks`: split `text` with the
configured splitter and tag each chunk with `chunk_index`, `total_chunks`
and `token_count` metadata on top of a copy of the caller's metadata. -/
def split_text_into_chunks (splitter : String → List String)
    (text : String) (metadata : Dict) : List Doc :=
  let chunks := splitter text
  chunks.enum.map (fun ic =>
    { page_content := ic.2
      metadata := dictUpdate metadata
        [("chunk_index", .nat ic.1),
         ("total_chunks", .nat chunks.length),
         ("token_count", .nat (count_tokens ic.2))] })

/-- `os.path.basename`: the part of the path after the last `/`. -/
def basename (path : String) : String :=
  (path.splitOn "/").getLastD ""

/-- `os.path.splitext(path)[1]`: the extension starts at the last dot of the
basename, unless every character before that dot is itself a dot (so a name
like `.bashrc` has no extension). -/
def splitext_ext (path : String) : String :=
  let chars := (basename path).toList
  match (chars.enum.filter (fun p => p.2 = '.')).getLast? with
  | none => ""
  | some last =>
      if (chars.take last.1).all (fun c => c = '.') then ""
      else String.mk (chars.drop last.1)

/-- `EmbeddingManager.process_file`: read the file (the file system is the
abstract `files` map; `none` models an `open`/read failure), auto-populate
`source`, `file_name` and `file_type` metadata, merge in the caller's
`additional_metadata` (caller wins on conflict), and split into chunks.
A `none` result models the method raising. -/
def process_file (splitter : String → List String)
    (files : String → Option String)
    (file_path : String) (additional_metadata : Dict) : Option (List Doc) :=
  match files file_path with
  | none => none
  | some content =>
      let metadata : Dict :=
        dictUpdate
          [("source", .str file_path),
           ("file_name", .str (basename file_path)),
           ("file_type", .str (splitext_ext file_path))]
          additional_metadata
      some (split_text_into_chunks splitter content metadata)

/-- `EmbeddingManager.process_multiple_files`: process each file, skipping
(with a logged warning) any file whose processing raises, and concatenate all
chunks. This function itself never raises. -/
def process_multiple_files (splitter : String → List String)
    (files : String → Option String) (file_paths : List String) : List Doc :=
  file_paths.foldl (fun all_documents file_path =>
    match process_file splitter files file_path [] with
    | some documents => all_documents ++ documents
    | none => all_documents) []

/-! ### `RAGSystem` pipeline (src/rag/rag_system.py)

External collaborators of the pipeline:
  * `search : String → Except String (List Doc)` — `SupabaseManager.similarity_search`
    (query embedding + `match_documents` RPC; an `.error` models it raising);
  * `llm : String → String → Except String String` — `(prompt | self.llm).invoke`
    applied to the context and the query, returning `response.content`;
  * `checkpoint : String → List Message` — the LangGraph `MemorySaver` message
    history persisted per `thread_id`.
-/

/-- A langchain chat message, as used in the `messages` channel. -/
inductive Message where
  | human (content : String)
  | ai (content : String)
deriving Repr, DecidableEq

/-- The LangGraph state (`RAGState` TypedDict). -/
structure RAGState where
  messages : List Message
  query : String
  retrieved_docs : List Doc
  context : String
  answer : String
deriving Repr, DecidableEq

/-- The `context_parts` list of `RAGSystem._retrieve_documents`: one part
`"Document {i}:\n{content}\n"` per retrieved document (`enumerate(docs, 1)`,
so `i` is the 1-based input position). -/
def contextParts (retrieved_docs : List Doc) : List String :=
  retrieved_docs.enum.map (fun p =>
    "Document " ++ toString (p.1 + 1) ++ ":\n" ++ p.2.page_content ++ "\n")

/-- The context assembly of `RAGSystem._retrieve_documents`:
`"\n".join(context_parts)`. -/
def contextFrom (retrieved_docs : List Doc) : String :=
  joinWith "\n" (contextParts retrieved_docs)

/-- `RAGSystem._retrieve_documents`: on success, return the documents and the
assembled context; on any exception, return `[]` and the fixed sentinel
`"No relevant documents found."`. The node never raises. -/
def retrieve_documents (search : String → Except String (List Doc))
    (state : RAGState) : RAGState :=
  match search state.query with
  | .ok retrieved_docs =>
      { state with
          retrieved_docs := retrieved_docs
          context := contextFrom retrieved_docs }
  | .error _ =>
      { state with
          retrieved_docs := []
          context := "No relevant documents found." }

/-- `RAGSystem._generate_answer`: invoke the chat model on the context and
query; on any exception, answer with the fixed generation-error apology. The
`messages` channel accumulates via the `add_messages` reducer. The node never
raises. -/
def generate_answer (llm : String → String → Except String String)
    (state : RAGState) : RAGState :=
  match llm state.context state.query with
  | .ok answer =>
      { state with
          answer := answer
          messages := state.messages ++ [.human state.query, .ai answer] }
  | .error _ =>
      let error_answer := "Anteeksi, tapahtui virhe vastausta generoitaessa."
      { state with
          answer := error_answer
          messages := state.messages ++ [.human state.query, .ai error_answer] }

/-- One compiled-graph invocation: entry point `retrieve`, then `generate`,
then `END`; the checkpointer restores the thread's accumulated `messages`
channel before the supplied input is applied. -/
def graphInvoke (search : String → Except String (List Doc))
    (llm : String → String → Except String String)
    (checkpoint : String → List Message)
    (thread_id : String) (initial : RAGState) : RAGState :=
  let restored := { initial with messages := checkpoint thread_id ++ initial.messages }
  generate_answer llm (retrieve_documents search restored)

/-- The result dict of `RAGSystem.ask`. -/
structure QueryResult where
  query : String
  answer : String
  retrieved_docs : List Doc
  context : String
deriving Repr, DecidableEq

/-- `RAGSystem.ask`: build the initial state, invoke the graph under the
thread's config, and project the four result fields; if the graph invocation
itself raises (`graphOk = false`, e.g. `graph is None` or checkpointer
machinery failure), return the fixed apology result instead. -/
def ask (graphOk : Bool) (search : String → Except String (List Doc))
    (llm : String → String → Except String String)
    (checkpoint : String → List Message)
    (query : String) (thread_id : String) : QueryResult :=
  let initial_state : RAGState :=
    { query := query, messages := [], retrieved_docs := [], context := "", answer := "" }
  if graphOk then
    let result := graphInvoke search llm checkpoint thread_id initial_state
    { query := query
      answer := result.answer
      retrieved_docs := result.retrieved_docs
      context := result.context }
  else
    { query := query
      answer := "Anteeksi, tapahtui virhe kysymystä käsiteltäessä."
      retrieved_docs := []
      context := "" }

/-- `RAGSystem.add_documents_from_files`: process the files, fail (`false`)
when no chunks were produced, otherwise add the chunks to the vector store
(`addDocsOk documents = false` models `SupabaseManager.add_documents`
raising, which the surrounding `try` converts to `false`). -/
def add_documents_from_files (splitter : String → List String)
    (files : String → Option String)
    (addDocsOk : List Doc → Bool) (file_paths : List String) : Bool :=
  let documents := process_multiple_files splitter files file_paths
  if documents.isEmpty then false
  else if addDocsOk documents then true
  else false

/-- `RAGSystem.get_conversation_history`: placeholder, returns `[]` for every
thread. -/
def get_conversation_history (thread_id : String) : List (List (String × String)) :=
  []

/-! ### Construction and startup (src/rag/rag_system.py `__init__`,
src/database/supabase_manager.py, main.py)

The process environment is an abstract `env : String → Option String`
(`os.getenv`); a set-but-empty variable is falsy in Python, so "present"
means set and non-empty. -/

/-- Python exceptions raised on the construction path. -/
inductive InitError where
  | valueError (msg : String)
  | attributeError (msg : String)
deriving Repr, DecidableEq

/-- `not os.getenv(var)`: the variable is unset or empty. -/
def envMissing (env : String → Option String) (var : String) : Bool :=
  match env var with
  | none => true
  | some s => s = ""

/-- The attribute names `SupabaseManager` actually defines
(src/database/supabase_manager.py defines exactly these methods). -/
def supabaseManagerMethods : List String :=
  ["__init__", "add_documents", "similarity_search", "similarity_search_with_score"]

/-- `SupabaseManager.__init__`: read `SUPABASE_URL` / `SUPABASE_KEY` and raise
`ValueError` when either is unset or empty. -/
def supabaseManagerInit (env : String → Option String) : Except InitError Unit :=
  if envMissing env "SUPABASE_URL" ∨ envMissing env "SUPABASE_KEY" then
    .error (.valueError "SUPABASE_URL and SUPABASE_KEY must be set in environment variables")
  else .ok ()

/-- Python attribute access `obj.name()` on a `SupabaseManager` instance:
`AttributeError` when the class defines no such method. -/
def supabaseManagerCall (name : String) : Except InitError Unit :=
  if name ∈ supabaseManagerMethods then .ok ()
  else .error (.attributeError name)

/-- `ChatOpenAI(model=model_name, temperature=0)`: langchain-openai validates
the API credential at construction and raises when `OPENAI_API_KEY` is unset. -/
def chatOpenAIInit (env : String → Option String) : Except InitError Unit :=
  if envMissing env "OPENAI_API_KEY" then
    .error (.valueError "Did not find openai_api_key")
  else .ok ()

/-- `RAGSystem.__init__(model_name)`: construct the chat model, the
`SupabaseManager` and the `EmbeddingManager` (the latter never raises —
it skips embeddings when the key is absent), build the graph, then call
`self.supabase_manager.initialize_vector_store()`. -/
def ragSystemInit (model_name : String) (env : String → Option String) :
    Except InitError Unit :=
  match chatOpenAIInit env with
  | .error e => .error e
  | .ok _ =>
      match supabaseManagerInit env with
      | .error e => .error e
      | .ok _ => supabaseManagerCall "initialize_vector_store"

/-- All three required variables are set and non-empty. -/
def configPresent (env : String → Option String) : Prop :=
  envMissing env "OPENAI_API_KEY" = false ∧
  envMissing env "SUPABASE_URL" = false ∧
  envMissing env "SUPABASE_KEY" = false

instance (env : String → Option String) : Decidable (configPresent env) := by
  unfold configPresent; infer_instance

/-- `main()`'s required configuration names, in source order. -/
def required_env_vars : List String :=
  ["OPENAI_API_KEY", "SUPABASE_URL", "SUPABASE_KEY"]

/-- `missing_vars = [var for var in required_env_vars if not os.getenv(var)]`. -/
def missing_vars (env : String → Option String) : List String :=
  required_env_vars.filter (envMissing env)

/-- Observable outcome of `main()` up to the interactive loop. -/
inductive MainOutcome where
  | refused (missing : List String)
  | startupError (e : InitError)
  | started
deriving Repr, DecidableEq

/-- `main()`: check the environment first — when anything is missing, print
the enumerated missing names and return before constructing the system;
otherwise construct `RAGSystem()` inside a `try` whose `except` reports a
startup error; only a successful construction reaches sample-data loading and
the interactive loop. -/
def main (env : String → Option String) : MainOutcome :=
  if ¬ (missing_vars env).isEmpty then
    .refused (missing_vars env)
  else
    match ragSystemInit "gpt-4o-mini" env with
    | .error e => .startupError e
    | .ok _ => .started

/-! ## Claim theorems -/

/-- C7: constructing a `RAGSystem` never succeeds for any model name and any
environment, and whenever all required configuration is present the failure is
precisely the `AttributeError` for `initialize_vector_store`, the method
`__init__` calls but `SupabaseManager` never defines; so no entry point ever
obtains a successfully constructed `RAGSystem` instance. -/
theorem C7_init_always_raises (model_name : String) (env : String → Option String) :
    (∀ u, ragSystemInit model_name env ≠ .ok u) ∧
    (configPresent env →
      ragSystemInit model_name env = .error (.attributeError "initialize_vector_store")) := by
  unfold ragSystemInit chatOpenAIInit supabaseManagerInit
  constructor
  · intro u h
    by_cases h1 : envMissing env "OPENAI_API_KEY" = true
    · simp [h1] at h
    · by_cases h2 : (envMissing env "SUPABASE_URL" = true ∨ envMissing env "SUPABASE_KEY" = true)
      · simp [h1, h2] at h
      · simp only [h1, h2] at h
        rw [if_neg (by simpa using h1), if_neg (by simpa using h2)] at h
        simp [supabaseManagerCall, supabaseManagerMethods] at h
  · rintro ⟨h1, h2, h3⟩
    rw [if_neg (by simp [h1]), if_neg (by simp [h2, h3])]
    simp [supabaseManagerCall, supabaseManagerMethods]

/-- Witness for C7 at a concrete fully-configured environment. -/
theorem C7_init_always_raises_witness :
    ragSystemInit "gpt-4o-mini" (fun _ => some "conf") =
      .error (.attributeError "initialize_vector_store") :=
  (C7_init_always_raises "gpt-4o-mini" (fun _ => some "conf")).2 (by decide)

/-- C9: in every environment missing at least one required configuration
value, `main` refuses to start before constructing the system or entering the
interactive loop, reporting exactly the enumerated list of missing names. -/
theorem C9_missing_config_blocks_startup (env : String → Option String)
    (h : missing_vars env ≠ []) :
    main env = .refused (required_env_vars.filter (envMissing env)) ∧
    main env ≠ .started := by
  have hne : (missing_vars env).isEmpty = false := by
    cases hmv : missing_vars env with
    | nil => exact absurd hmv h
    | cons a t => rfl
  constructor
  · unfold main
    rw [if_pos (by simp [hne])]
    rfl
  · unfold main
    rw [if_pos (by simp [hne])]
    intro hcontr
    exact MainOutcome.noConfusion hcontr

/-- Witness for C9 at the empty environment: all three names are reported. -/
theorem C9_missing_config_blocks_startup_witness :
    main (fun _ => none) =
      .refused ["OPENAI_API_KEY", "SUPABASE_URL", "SUPABASE_KEY"] :=
  (C9_missing_config_blocks_startup (fun _ => none) (by decide)).1

/-- The metadata dict `split_text_into_chunks` pushes on top of the caller's
metadata for chunk `i` of `n` with token count `tc`. -/
def chunkFields (i n tc : Nat) : Dict :=
  [("chunk_index", .nat i), ("total_chunks", .nat n), ("token_count", .nat tc)]

theorem chunkFields_lookup_chunk_index (i n tc : Nat) :
    dictLookup (chunkFields i n tc) "chunk_index" = some (.nat i) := by
  unfold chunkFields
  rw [dictLookup_cons, if_pos rfl]

theorem chunkFields_lookup_total_chunks (i n tc : Nat) :
    dictLookup (chunkFields i n tc) "total_chunks" = some (.nat n) := by
  unfold chunkFields
  rw [dictLookup_cons, if_neg (by simp), dictLookup_cons, if_pos rfl]

theorem chunkFields_lookup_token_count (i n tc : Nat) :
    dictLookup (chunkFields i n tc) "token_count" = some (.nat tc) := by
  unfold chunkFields
  rw [dictLookup_cons, if_neg (by simp), dictLookup_cons, if_neg (by simp),
    dictLookup_cons, if_pos rfl]

theorem chunkFields_lookup_other (i n tc : Nat) (k : String)
    (h1 : k ≠ "chunk_index") (h2 : k ≠ "total_chunks") (h3 : k ≠ "token_count") :
    dictLookup (chunkFields i n tc) k = none := by
  unfold chunkFields
  rw [dictLookup_cons, if_neg (fun h => h1 h.symm), dictLookup_cons,
    if_neg (fun h => h2 h.symm), dictLookup_cons, if_neg (fun h => h3 h.symm)]
  rfl

theorem split_text_into_chunks_getElem (splitter : String → List String)
    (text : String) (metadata : Dict) (i : Nat)
    (h : i < (split_text_into_chunks splitter text metadata).length) :
    (split_text_into_chunks splitter text metadata)[i] =
      { page_content := (splitter text).get ⟨i, by simpa [split_text_into_chunks] using h⟩
        metadata := dictUpdate metadata
          (chunkFields i (splitter text).length
            (count_tokens
              ((splitter text).get ⟨i, by simpa [split_text_into_chunks] using h⟩))) } := by
  simp [split_text_into_chunks, chunkFields]

/-- C4: every chunk list produced by `split_text_into_chunks` (for any
splitter output, input text and caller metadata) has `chunk_index` running
`0..total_chunks-1` in order, `total_chunks` equal to the length of the
returned list on every chunk, and `token_count` equal to
`floor(len(chunk) / 4)`. -/
theorem C4_chunk_tagging (splitter : String → List String)
    (text : String) (metadata : Dict) :
    (split_text_into_chunks splitter text metadata).length = (splitter text).length ∧
    ∀ i (h : i < (split_text_into_chunks splitter text metadata).length),
      dictLookup ((split_text_into_chunks splitter text metadata)[i].metadata) "chunk_index"
          = some (.nat i) ∧
      dictLookup ((split_text_into_chunks splitter text metadata)[i].metadata) "total_chunks"
          = some (.nat (split_text_into_chunks splitter text metadata).length) ∧
      dictLookup ((split_text_into_chunks splitter text metadata)[i].metadata) "token_count"
          = some (.nat
              ((split_text_into_chunks splitter text metadata)[i].page_content.length / 4)) := by
  have hlen : (split_text_into_chunks splitter text metadata).length = (splitter text).length := by
    simp [split_text_into_chunks]
  refine ⟨hlen, ?_⟩
  intro i h
  rw [split_text_into_chunks_getElem splitter text metadata i h]
  refine ⟨?_, ?_, ?_⟩
  · rw [dictLookup_dictUpdate, chunkFields_lookup_chunk_index]
  · rw [dictLookup_dictUpdate, chunkFields_lookup_total_chunks, hlen]
  · rw [dictLookup_dictUpdate, chunkFields_lookup_token_count]
    rfl

/-- Witness for C4 on a concrete two-chunk split. -/
theorem C4_chunk_tagging_witness :
    dictLookup ((split_text_into_chunks (fun _ => ["abcd", "efghij"]) "t" []).get
        ⟨1, by decide⟩).metadata "total_chunks" = some (.nat 2) :=
  (((C4_chunk_tagging (fun _ => ["abcd", "efghij"]) "t" []).2 1 (by decide)).2).1

theorem dictLookup_dictUpdate_chunkFields (m : Dict) (i n tc : Nat) (k : String)
    (h1 : k ≠ "chunk_index") (h2 : k ≠ "total_chunks") (h3 : k ≠ "token_count") :
    dictLookup (dictUpdate m (chunkFields i n tc)) k = dictLookup m k := by
  rw [dictLookup_dictUpdate, chunkFields_lookup_other i n tc k h1 h2 h3]

/-- C8: when `process_file` succeeds on a path, every produced chunk's
metadata binds `source`, `file_name` and `file_type`: to the caller-supplied
value when the caller's metadata binds that key, and otherwise to the
auto-populated source path, base name and extension respectively. -/
theorem C8_file_metadata_precedence (splitter : String → List String)
    (files : String → Option String) (file_path : String)
    (additional_metadata : Dict) (content : String)
    (hread : files file_path = some content) :
    ∃ docs, process_file splitter files file_path additional_metadata = some docs ∧
      ∀ doc ∈ docs,
        dictLookup doc.metadata "source" =
          some ((dictLookup additional_metadata "source").getD (.str file_path)) ∧
        dictLookup doc.metadata "file_name" =
          some ((dictLookup additional_metadata "file_name").getD
            (.str (basename file_path))) ∧
        dictLookup doc.metadata "file_type" =
          some ((dictLookup additional_metadata "file_type").getD
            (.str (splitext_ext file_path))) := by
  unfold process_file
  rw [hread]
  refine ⟨_, rfl, ?_⟩
  intro doc hdoc
  unfold split_text_into_chunks at hdoc
  simp only [List.mem_map] at hdoc
  obtain ⟨ic, _, hic⟩ := hdoc
  have hmeta : doc.metadata =
      dictUpdate
        (dictUpdate
          [("source", .str file_path),
           ("file_name", .str (basename file_path)),
           ("file_type", .str (splitext_ext file_path))]
          additional_metadata)
        (chunkFields ic.1 (splitter content).length (count_tokens ic.2)) := by
    rw [← hic]
    rfl
  rw [hmeta]
  refine ⟨?_, ?_, ?_⟩
  · rw [dictLookup_dictUpdate_chunkFields _ _ _ _ _ (by simp) (by simp) (by simp),
      dictLookup_dictUpdate]
    cases hc : dictLookup additional_metadata "source" with
    | some v => simp [hc]
    | none =>
        simp only [hc, Option.getD_none]
        rw [dictLookup_cons, if_pos rfl]
  · rw [dictLookup_dictUpdate_chunkFields _ _ _ _ _ (by simp) (by simp) (by simp),
      dictLookup_dictUpdate]
    cases hc : dictLookup additional_metadata "file_name" with
    | some v => simp [hc]
    | none =>
        simp only [hc, Option.getD_none]
        rw [dictLookup_cons, if_neg (by simp), dictLookup_cons, if_pos rfl]
  · rw [dictLookup_dictUpdate_chunkFields _ _ _ _ _ (by simp) (by simp) (by simp),
      dictLookup_dictUpdate]
    cases hc : dictLookup additional_metadata "file_type" with
    | some v => simp [hc]
    | none =>
        simp only [hc, Option.getD_none]
        rw [dictLookup_cons, if_neg (by simp), dictLookup_cons, if_neg (by simp),
          dictLookup_cons, if_pos rfl]

/-- Witness for C8: a file at a concrete path, with caller metadata that
overrides `file_name`; the auto `source` survives and the caller's
`file_name` wins. -/
theorem C8_file_metadata_precedence_witness :
    ∃ docs,
      process_file (fun s => [s]) (fun p => if p = "data/doc.txt" then some "sisältö" else none)
        "data/doc.txt" [("file_name", .str "oma_nimi")] = some docs ∧
      ∀ doc ∈ docs,
        dictLookup doc.metadata "source" =
          some ((dictLookup [("file_name", MetaVal.str "oma_nimi")] "source").getD
            (.str "data/doc.txt")) ∧
        dictLookup doc.metadata "file_name" =
          some ((dictLookup [("file_name", MetaVal.str "oma_nimi")] "file_name").getD
            (.str (basename "data/doc.txt"))) ∧
        dictLookup doc.metadata "file_type" =
          some ((dictLookup [("file_name", MetaVal.str "oma_nimi")] "file_type").getD
            (.str (splitext_ext "data/doc.txt"))) :=
  C8_file_metadata_precedence (fun s => [s])
    (fun p => if p = "data/doc.txt" then some "sisältö" else none)
    "data/doc.txt" [("file_name", .str "oma_nimi")] "sisältö" (by decide)

/-- Joining parts that each end in `"\n"` with `"\n"` is the same as joining
the bare parts with a blank line (`"\n\n"`) and appending one final newline. -/
theorem joinWith_newline_blocks (l : List String) (hne : l ≠ []) :
    joinWith "\n" (l.map (fun s => s ++ "\n")) = joinWith "\n\n" l ++ "\n" := by
  induction l with
  | nil => exact absurd rfl hne
  | cons a t ih =>
      cases t with
      | nil => rfl
      | cons b r =>
          rw [List.map_cons]
          show (a ++ "\n") ++ "\n" ++ joinWith "\n" ((b :: r).map (fun s => s ++ "\n")) = _
          rw [ih (by simp)]
          show (a ++ "\n") ++ "\n" ++ (joinWith "\n\n" (b :: r) ++ "\n") =
            a ++ "\n\n" ++ joinWith "\n\n" (b :: r) ++ "\n"
          rw [String.append_assoc a "\n" "\n"]
          rw [String.append_assoc, String.append_assoc, String.append_assoc]
          rw [← String.append_assoc "\n" "\n", show ("\n" : String) ++ "\n" = "\n\n" from rfl,
            ← String.append_assoc]

theorem contextParts_getElem (docs : List Doc) (i : Nat) (h : i < docs.length) :
    (contextParts docs).get ⟨i, by simpa [contextParts] using h⟩ =
      "Document " ++ toString (i + 1) ++ ":\n" ++ (docs.get ⟨i, h⟩).page_content ++ "\n" := by
  simp [contextParts]

/-- C5: for every non-empty retrieved-document list, the assembled context is
one block `"Document {i}:\n{content}\n"` per document with `i` its 1-based
input position (so `Document 1`, `Document 2`, ... follow the input order),
and the blocks are separated by exactly one blank line. -/
theorem C5_context_format (docs : List Doc) (hne : docs ≠ []) :
    (contextParts docs).length = docs.length ∧
    (∀ i (h : i < docs.length),
      (contextParts docs).get ⟨i, by simpa [contextParts] using h⟩ =
        "Document " ++ toString (i + 1) ++ ":\n" ++ (docs.get ⟨i, h⟩).page_content ++ "\n") ∧
    contextFrom docs =
      joinWith "\n\n" (docs.enum.map (fun p =>
        "Document " ++ toString (p.1 + 1) ++ ":\n" ++ p.2.page_content)) ++ "\n" := by
  refine ⟨by simp [contextParts], contextParts_getElem docs, ?_⟩
  unfold contextFrom contextParts
  have hmm : docs.enum.map (fun p =>
      "Document " ++ toString (p.1 + 1) ++ ":\n" ++ p.2.page_content ++ "\n") =
      (docs.enum.map (fun p =>
        "Document " ++ toString (p.1 + 1) ++ ":\n" ++ p.2.page_content)).map
        (fun s => s ++ "\n") := by
    rw [List.map_map]
    rfl
  rw [hmm, joinWith_newline_blocks]
  intro hc
  apply hne
  have : docs.enum = [] := List.map_eq_nil.mp hc
  simpa using congrArg List.length this

/-- Witness for C5 on a concrete two-document list: the context reads
`Document 1` then a blank line then `Document 2`, in input order. -/
theorem C5_context_format_witness :
    contextFrom [⟨"eka", []⟩, ⟨"toka", []⟩] =
      joinWith "\n\n" (([⟨"eka", []⟩, ⟨"toka", []⟩] : List Doc).enum.map (fun p =>
        "Document " ++ toString (p.1 + 1) ++ ":\n" ++ p.2.page_content)) ++ "\n" :=
  (C5_context_format [⟨"eka", []⟩, ⟨"toka", []⟩] (by decide)).2.2

/-- C1 as stated is false: with a failing document store but a working chat
model, `ask` returns the model's generated answer on the sentinel context —
not the fixed apology string — and a non-empty context. -/
theorem C1_counterexample :
    (ask true (fun _ => .error "connection refused") (fun _ _ => .ok "Tämä on vastaus")
        (fun _ => []) "kysymys" "default").answer ≠
      "Anteeksi, tapahtui virhe kysymystä käsiteltäessä." ∧
    (ask true (fun _ => .error "connection refused") (fun _ _ => .ok "Tämä on vastaus")
        (fun _ => []) "kysymys" "default").context ≠ "" := by
  decide

/-- C1 amended: `ask` always returns a well-formed `QueryResult` whose
`query` field equals the input query and never raises; only a failure of the
graph invocation itself yields the fixed apology with empty `retrieved_docs`
and empty `context`, while node-level failures are handled inside the nodes
(retrieval failure → empty documents and the sentinel context, generation
failure → the generation apology answer). -/
theorem C1_ask_always_well_formed (graphOk : Bool)
    (search : String → Except String (List Doc))
    (llm : String → String → Except String String)
    (checkpoint : String → List Message) (query thread_id : String) :
    (ask graphOk search llm checkpoint query thread_id).query = query ∧
    (graphOk = false →
      ask graphOk search llm checkpoint query thread_id =
        { query := query
          answer := "Anteeksi, tapahtui virhe kysymystä käsiteltäessä."
          retrieved_docs := []
          context := "" }) ∧
    (∀ e, graphOk = true → search query = .error e →
      (ask graphOk search llm checkpoint query thread_id).retrieved_docs = [] ∧
      (ask graphOk search llm checkpoint query thread_id).context =
        "No relevant documents found.") ∧
    (∀ e, graphOk = true →
      llm (retrieve_documents search
        ⟨checkpoint thread_id ++ [], query, [], "", ""⟩).context query = .error e →
      (ask graphOk search llm checkpoint query thread_id).answer =
        "Anteeksi, tapahtui virhe vastausta generoitaessa.") := by
  refine ⟨by cases graphOk <;> rfl, fun hg => by subst hg; rfl, ?_, ?_⟩
  · intro e hg hs
    subst hg
    cases hl : llm "No relevant documents found." query with
    | ok a => simp [ask, graphInvoke, retrieve_documents, generate_answer, hs, hl]
    | error err => simp [ask, graphInvoke, retrieve_documents, generate_answer, hs, hl]
  · intro e hg hl
    subst hg
    cases hs : search query with
    | ok docs =>
        simp only [retrieve_documents, hs] at hl
        simp [ask, graphInvoke, retrieve_documents, generate_answer, hs, hl]
    | error err =>
        simp only [retrieve_documents, hs] at hl
        simp [ask, graphInvoke, retrieve_documents, generate_answer, hs, hl]

/-- Witness for C1 amended: a graph-machinery failure yields the apology
result. -/
theorem C1_ask_always_well_formed_witness :
    ask false (fun _ => .ok []) (fun _ _ => .ok "ok") (fun _ => []) "kysymys" "t" =
      { query := "kysymys"
        answer := "Anteeksi, tapahtui virhe kysymystä käsiteltäessä."
        retrieved_docs := []
        context := "" } :=
  ((C1_ask_always_well_formed false (fun _ => .ok []) (fun _ _ => .ok "ok")
      (fun _ => []) "kysymys" "t").2.1) rfl

/-- C2 as stated is false: a store failure during `ask` leaves `context`
equal to the sentinel `"No relevant documents found."` (not `""`), and the
answer is whatever the chat model generated, not the fixed apology. -/
theorem C2_counterexample :
    (ask true (fun _ => .error "store unavailable") (fun _ _ => .ok "Tässä tietoa")
        (fun _ => []) "mikä" "t").context ≠ "" ∧
    (ask true (fun _ => .error "store unavailable") (fun _ _ => .ok "Tässä tietoa")
        (fun _ => []) "mikä" "t").answer ≠
      "Anteeksi, tapahtui virhe kysymystä käsiteltäessä." := by
  decide

/-- C2 amended: when the store raises during `ask`, no exception propagates
(`ask` is total), the result is well-formed with `retrieved_docs = []` and
`context = "No relevant documents found."`, and the answer is the chat
model's response on that sentinel context (or the generation apology if
generation also fails). -/
theorem C2_store_failure_degrades
    (search : String → Except String (List Doc))
    (llm : String → String → Except String String)
    (checkpoint : String → List Message) (query thread_id e : String)
    (hs : search query = .error e) :
    (ask true search llm checkpoint query thread_id).query = query ∧
    (ask true search llm checkpoint query thread_id).retrieved_docs = [] ∧
    (ask true search llm checkpoint query thread_id).context =
      "No relevant documents found." ∧
    (ask true search llm checkpoint query thread_id).answer =
      (match llm "No relevant documents found." query with
       | .ok a => a
       | .error _ => "Anteeksi, tapahtui virhe vastausta generoitaessa.") := by
  cases hl : llm "No relevant documents found." query with
  | ok a => simp [ask, graphInvoke, retrieve_documents, generate_answer, hs, hl]
  | error err => simp [ask, graphInvoke, retrieve_documents, generate_answer, hs, hl]

/-- Witness for C2 amended at a concrete failing store. -/
theorem C2_store_failure_degrades_witness :
    (ask true (fun _ => .error "down") (fun _ _ => .ok "Vastaus tähän")
        (fun _ => []) "kys" "t").retrieved_docs = [] ∧
    (ask true (fun _ => .error "down") (fun _ _ => .ok "Vastaus tähän")
        (fun _ => []) "kys" "t").context = "No relevant documents found." :=
  ⟨(C2_store_failure_degrades (fun _ => .error "down") (fun _ _ => .ok "Vastaus tähän")
      (fun _ => []) "kys" "t" "down" rfl).2.1,
   (C2_store_failure_degrades (fun _ => .error "down") (fun _ _ => .ok "Vastaus tähän")
      (fun _ => []) "kys" "t" "down" rfl).2.2.1⟩

/-- C3 as stated is false: on a successful retrieval of zero documents the
assembled context is the empty string, not a non-empty sentinel, and the
answer generator is invoked with that empty context (the answer below echoes
the context the model received). -/
theorem C3_counterexample :
    (ask true (fun _ => .ok []) (fun c _ => .ok ("K:" ++ c))
        (fun _ => []) "haku" "t").context = "" ∧
    (ask true (fun _ => .ok []) (fun c _ => .ok ("K:" ++ c))
        (fun _ => []) "haku" "t").answer = "K:" := by
  decide

/-- C3 amended: against a store with zero matching rows, retrieval succeeds
with an empty document list and `ask` returns a well-formed result whose
`context` is the empty string (the `"No relevant documents found."` sentinel
only appears on the retrieval-failure path), and the answer generator is
invoked with that empty context. -/
theorem C3_zero_docs_empty_context
    (search : String → Except String (List Doc))
    (llm : String → String → Except String String)
    (checkpoint : String → List Message) (query thread_id : String)
    (hs : search query = .ok []) :
    (ask true search llm checkpoint query thread_id).query = query ∧
    (ask true search llm checkpoint query thread_id).retrieved_docs = [] ∧
    (ask true search llm checkpoint query thread_id).context = "" ∧
    (ask true search llm checkpoint query thread_id).answer =
      (match llm "" query with
       | .ok a => a
       | .error _ => "Anteeksi, tapahtui virhe vastausta generoitaessa.") := by
  cases hl : llm "" query with
  | ok a =>
      simp [ask, graphInvoke, retrieve_documents, generate_answer, contextFrom,
        contextParts, joinWith, hs, hl]
  | error err =>
      simp [ask, graphInvoke, retrieve_documents, generate_answer, contextFrom,
        contextParts, joinWith, hs, hl]

/-- Witness for C3 amended at a concrete zero-row store. -/
theorem C3_zero_docs_empty_context_witness :
    (ask true (fun _ => .ok []) (fun _ _ => .ok "Ei tietoa")
        (fun _ => []) "tyhjä" "t").retrieved_docs = [] ∧
    (ask true (fun _ => .ok []) (fun _ _ => .ok "Ei tietoa")
        (fun _ => []) "tyhjä" "t").context = "" :=
  ⟨(C3_zero_docs_empty_context (fun _ => .ok []) (fun _ _ => .ok "Ei tietoa")
      (fun _ => []) "tyhjä" "t" rfl).2.1,
   (C3_zero_docs_empty_context (fun _ => .ok []) (fun _ _ => .ok "Ei tietoa")
      (fun _ => []) "tyhjä" "t" rfl).2.2.1⟩

theorem process_multiple_files_foldl_acc (splitter : String → List String)
    (files : String → Option String) (l : List String) (acc : List Doc) :
    l.foldl (fun all_documents file_path =>
      match process_file splitter files file_path [] with
      | some documents => all_documents ++ documents
      | none => all_documents) acc
    = acc ++ process_multiple_files splitter files l := by
  induction l generalizing acc with
  | nil => simp [process_multiple_files]
  | cons p rest ih =>
      rw [List.foldl_cons]
      conv_rhs => rw [process_multiple_files, List.foldl_cons]
      cases hp : process_file splitter files p [] with
      | some d =>
          simp only [hp]
          rw [ih, ih ([] ++ d)]
          simp [List.append_assoc]
      | none =>
          simp only [hp]
          rw [ih, ih []]
          simp

/-- A file whose processing raises is skipped: its contribution to the batch
is the empty list, and the rest of the batch is still processed. -/
theorem process_multiple_files_cons (splitter : String → List String)
    (files : String → Option String) (p : String) (rest : List String) :
    process_multiple_files splitter files (p :: rest) =
      (process_file splitter files p []).getD [] ++
        process_multiple_files splitter files rest := by
  rw [process_multiple_files, List.foldl_cons]
  cases hp : process_file splitter files p [] with
  | some d =>
      simp only [hp, Option.getD_some]
      rw [process_multiple_files_foldl_acc, List.nil_append]
  | none =>
      simp only [hp, Option.getD_none]
      rw [process_multiple_files_foldl_acc]

/-- C6 as stated is false: when one of two files fails to read, the batch is
not reported as total failure — the failing file is skipped, the other file's
chunks are inserted and the call returns `True`. -/
theorem C6_counterexample :
    process_file (fun s => [s])
      (fun p => if p = "b.txt" then some "tekstiä" else none) "a.txt" [] = none ∧
    add_documents_from_files (fun s => [s])
      (fun p => if p = "b.txt" then some "tekstiä" else none)
      (fun _ => true) ["a.txt", "b.txt"] = true := by
  decide

/-- C6 amended: `add_documents_from_files` always returns a boolean and never
raises; it returns `True` exactly when the batch produced at least one chunk
and the store insertion of the whole batch succeeded (so an insertion failure
or an all-files failure is total failure), while an individual file whose
read/processing fails is skipped rather than failing the batch. -/
theorem C6_boolean_ingestion (splitter : String → List String)
    (files : String → Option String) (addDocsOk : List Doc → Bool)
    (file_paths : List String) :
    (add_documents_from_files splitter files addDocsOk file_paths = true ↔
      process_multiple_files splitter files file_paths ≠ [] ∧
      addDocsOk (process_multiple_files splitter files file_paths) = true) ∧
    (∀ p rest, process_multiple_files splitter files (p :: rest) =
      (process_file splitter files p []).getD [] ++
        process_multiple_files splitter files rest) := by
  refine ⟨?_, process_multiple_files_cons splitter files⟩
  unfold add_documents_from_files
  cases hdocs : process_multiple_files splitter files file_paths with
  | nil => simp
  | cons d t =>
      cases hins : addDocsOk (d :: t) with
      | true => simp [hins]
      | false => simp [hins]

/-- C10: `thread_id` has no effect on the result of `ask` — for identical
collaborator behaviour, any two thread ids produce equal `QueryResult`s —
and `get_conversation_history` returns the empty list for every thread. -/
theorem C10_thread_id_no_effect (graphOk : Bool)
    (search : String → Except String (List Doc))
    (llm : String → String → Except String String)
    (checkpoint : String → List Message) (query t₁ t₂ : String) :
    ask graphOk search llm checkpoint query t₁ =
      ask graphOk search llm checkpoint query t₂ ∧
    get_conversation_history t₁ = [] := by
  refine ⟨?_, rfl⟩
  cases graphOk with
  | false => rfl
  | true =>
      cases hs : search query with
      | ok docs =>
          cases hl : llm (contextFrom docs) query with
          | ok a => simp [ask, graphInvoke, retrieve_documents, generate_answer, hs, hl]
          | error e => simp [ask, graphInvoke, retrieve_documents, generate_answer, hs, hl]
      | error err =>
          cases hl : llm "No relevant documents found." query with
          | ok a => simp [ask, graphInvoke, retrieve_documents, generate_answer, hs, hl]
          | error e => simp [ask, graphInvoke, retrieve_documents, generate_answer, hs, hl]

end RagSupabase
